import Mathlib

/-!
Verification of the MangoDB_Coderush1.0 HFT dashboard (src/script.js) and its
Express chat server (src/unnamed/part_001) against the natural-language spec.

The JavaScript is embedded shallowly: `Math.random()` draws that drive a
branch or a value become explicit inputs (a trade event carries its two raw
draws), floating-point numbers become exact rationals (reals where a square
root is taken), and the DOM writes of a handler become the record the handler
returns.
-/

namespace HFT

/-! ## runSimpleBacktest (src/script.js lines 671-740)

The loop body touches state only inside the `Math.random() < 0.15` trade
branch (the generated `currentPrice` is never used).  A run is therefore
determined by, for each iteration, whether the trade branch fired and, if so,
the two draws `u = Math.random()` (P&L direction) and `s = Math.random()*100000`
(trade size).  An event `none` is an iteration without a trade; `some (u, s)`
is an iteration whose trade has `tradePnL = (u - 0.45) * s * 0.01`. -/

/-- Accumulator of the `for` loop of `runSimpleBacktest`. -/
structure BtAccum where
  capital : ℚ
  peakCapital : ℚ
  maxDrawdown : ℚ
  totalPnL : ℚ
  totalTrades : ℕ
  winningTrades : ℕ
  returns : List ℚ
  deriving DecidableEq

/-- Initial values of `runSimpleBacktest`: $1M capital, everything else zero. -/
def initAccum : BtAccum :=
  { capital := 1000000, peakCapital := 1000000, maxDrawdown := 0, totalPnL := 0,
    totalTrades := 0, winningTrades := 0, returns := [] }

/-- The trade P&L of one fired trade branch:
`(Math.random() - 0.45) * tradeSize * 0.01` with `tradeSize = Math.random()*100000`
passed in directly as `s`. -/
def tradePnLOf (u s : ℚ) : ℚ := (u - 9/20) * s * (1/100)

/-- One iteration of the `for` loop of `runSimpleBacktest`. -/
def tradeStep (acc : BtAccum) (e : Option (ℚ × ℚ)) : BtAccum :=
  match e with
  | none => acc
  | some (u, s) =>
    let tradePnL := tradePnLOf u s
    let capital := acc.capital + tradePnL
    let totalPnL := acc.totalPnL + tradePnL
    let winningTrades := if tradePnL > 0 then acc.winningTrades + 1 else acc.winningTrades
    let peakCapital := if capital > acc.peakCapital then capital else acc.peakCapital
    let drawdown := (peakCapital - capital) / peakCapital
    let maxDrawdown := if drawdown > acc.maxDrawdown then drawdown else acc.maxDrawdown
    let returnRate := (capital - 1000000) / 1000000
    { capital := capital, peakCapital := peakCapital, maxDrawdown := maxDrawdown,
      totalPnL := totalPnL, totalTrades := acc.totalTrades + 1,
      winningTrades := winningTrades, returns := acc.returns ++ [returnRate] }

/-- The whole loop of `runSimpleBacktest` over its per-iteration trade events. -/
def runSimpleBacktest (events : List (Option (ℚ × ℚ))) : BtAccum :=
  events.foldl tradeStep initAccum

/-- `totalReturn = (capital - 1000000) / 1000000` (line 717). -/
def totalReturn (a : BtAccum) : ℚ := (a.capital - 1000000) / 1000000

/-- `winRate = totalTrades > 0 ? winningTrades / totalTrades : 0` (line 718). -/
def winRate (a : BtAccum) : ℚ :=
  if a.totalTrades > 0 then (a.winningTrades : ℚ) / (a.totalTrades : ℚ) else 0

/-- `avgReturn = returns.length > 0 ? sum(returns)/returns.length : 0` (line 721). -/
def avgReturn (a : BtAccum) : ℚ :=
  if a.returns.length > 0 then a.returns.sum / (a.returns.length : ℚ) else 0

/-- `variance = returns.length > 0 ? sum((b - avgReturn)^2)/returns.length : 0` (line 722). -/
def btVariance (a : BtAccum) : ℚ :=
  if a.returns.length > 0 then
    ((a.returns.map (fun b => (b - avgReturn a) ^ 2)).sum) / (a.returns.length : ℚ)
  else 0

/-- `sharpeRatio = variance > 0 ? avgReturn / Math.sqrt(variance) : 0` (line 723). -/
noncomputable def sharpeRatio (a : BtAccum) : ℝ :=
  if 0 < btVariance a then (avgReturn a : ℝ) / Real.sqrt (btVariance a) else 0

/-- `profitFactor = totalPnL > 0 ? totalPnL / Math.abs(totalPnL - totalPnL * winRate) : 0`
(line 726). -/
def profitFactor (a : BtAccum) : ℚ :=
  if a.totalPnL > 0 then a.totalPnL / |a.totalPnL - a.totalPnL * winRate a| else 0

/-- `calmarRatio = maxDrawdown > 0 ? totalReturn / maxDrawdown : 0` (line 727). -/
def calmarRatio (a : BtAccum) : ℚ :=
  if a.maxDrawdown > 0 then totalReturn a / a.maxDrawdown else 0

/-- `sortinoRatio = sharpeRatio * 0.8` (line 728). -/
noncomputable def sortinoRatio (a : BtAccum) : ℝ := sharpeRatio a * (4/5)

/-! Spec-side definitions, written from the spec's words, to compare with the
code's metrics (they are deliberately NOT used to define the code's behaviour). -/

/-- The list of trade P&Ls of a run, in order. -/
def pnlList (events : List (Option (ℚ × ℚ))) : List ℚ :=
  events.filterMap (fun e => e.map (fun p => tradePnLOf p.1 p.2))

/-- Spec's gross profit: the sum of the winning trades' P&L. -/
def spec_grossProfit (events : List (Option (ℚ × ℚ))) : ℚ :=
  ((pnlList events).filter (fun p => decide (0 < p))).sum

/-- Spec's gross loss: the absolute sum of the losing trades' P&L. -/
def spec_grossLoss (events : List (Option (ℚ × ℚ))) : ℚ :=
  |((pnlList events).filter (fun p => decide (p < 0))).sum|

/-- Spec's profit factor: `gross_profit / gross_loss`. -/
def spec_profitFactor (events : List (Option (ℚ × ℚ))) : ℚ :=
  spec_grossProfit events / spec_grossLoss events

/-- Spec's downside variance: mean of the squared negative deviations of the
returns from their mean (positive deviations contribute zero). -/
def spec_downsideVariance (a : BtAccum) : ℚ :=
  if a.returns.length > 0 then
    ((a.returns.map (fun b => (min (b - avgReturn a) 0) ^ 2)).sum) / (a.returns.length : ℚ)
  else 0

/-- Spec's downside deviation: square root of the downside variance. -/
noncomputable def spec_downsideDeviation (a : BtAccum) : ℝ :=
  Real.sqrt (spec_downsideVariance a)

/-- Spec's Sortino ratio: the Sharpe numerator divided by the downside deviation. -/
noncomputable def spec_sortinoRatio (a : BtAccum) : ℝ :=
  (avgReturn a : ℝ) / spec_downsideDeviation a

/-- Spec's annualized return with annualization factor `A`. -/
def spec_annualizedReturn (A : ℚ) (a : BtAccum) : ℚ := A * avgReturn a

/-- Spec's annualized volatility with annualization factor `A`. -/
noncomputable def spec_annualizedVol (A : ℚ) (a : BtAccum) : ℝ :=
  Real.sqrt ((A : ℝ) * (btVariance a : ℝ))

/-- Spec's Sharpe ratio: `(annualized_return - risk_free) / annualized_vol`. -/
noncomputable def spec_sharpeRatio (A riskFree : ℚ) (a : BtAccum) : ℝ :=
  ((spec_annualizedReturn A a : ℝ) - (riskFree : ℝ)) / spec_annualizedVol A a

/-! ## The runBacktest click handler (src/script.js lines 402-516)

The handler tries `engine.run_backtest(...)`; a throw or a non-object result
collapses to `results = null`, after which `showSimulatedBacktestResults()`
writes freshly generated substitute values to the results panel.  A valid
result object has its fields written via `x || 0` (identity on finite
numbers).  The WASM outcome is the input `Option BacktestResult`
(`none` = failed/invalid run); the eight `Math.random()` draws of
`showSimulatedBacktestResults` are the input `SimDraws`; the record the
handler returns is what it wrote to the results panel. -/

/-- The fields of a successful WASM `run_backtest` result object. -/
structure BacktestResult where
  total_return : ℚ
  sharpe_ratio : ℚ
  max_drawdown : ℚ
  profit_factor : ℚ
  calmar_ratio : ℚ
  sortino_ratio : ℚ
  total_trades : ℕ
  win_rate : ℚ
  deriving DecidableEq

/-- The eight `Math.random()` draws consumed by `showSimulatedBacktestResults`,
each in `[0, 1)`. -/
structure SimDraws where
  r1 : ℚ
  r2 : ℚ
  r3 : ℚ
  r4 : ℚ
  r5 : ℚ
  r6 : ℚ
  r7 : ℚ
  r8 : ℚ
  deriving DecidableEq

/-- The values the handler writes into the backtest results panel. -/
structure DisplayedResults where
  totalReturn : ℚ
  sharpeRatioShown : ℚ
  maxDrawdownShown : ℚ
  profitFactorShown : ℚ
  calmarRatioShown : ℚ
  sortinoRatioShown : ℚ
  totalTradesShown : ℕ
  winRateShown : ℚ
  deriving DecidableEq

/-- The status string set by `updateStatus` at the end of the handler. -/
inductive BacktestStatus where
  | complete
  | completeSimulated
  deriving DecidableEq

/-- `showSimulatedBacktestResults` (lines 495-516): each displayed value is an
affine function of one fresh draw. -/
def showSimulatedBacktestResults (d : SimDraws) : DisplayedResults :=
  { totalReturn := d.r1 * (2/5) - 1/10,
    sharpeRatioShown := d.r2 * 2 + 1/2,
    maxDrawdownShown := d.r3 * (3/20) + 1/20,
    profitFactorShown := d.r4 * 2 + 4/5,
    calmarRatioShown := d.r5 * 3 + 1/2,
    sortinoRatioShown := d.r6 * (5/2) + 1/2,
    totalTradesShown := (Int.toNat ⌊d.r7 * 500⌋) + 100,
    winRateShown := d.r8 * (3/10) + 1/2 }

/-- The display of a successful run (lines 455-471); `x || 0` is the identity
on finite numbers, so each field is shown as-is. -/
def displayOfResult (r : BacktestResult) : DisplayedResults :=
  { totalReturn := r.total_return,
    sharpeRatioShown := r.sharpe_ratio,
    maxDrawdownShown := r.max_drawdown,
    profitFactorShown := r.profit_factor,
    calmarRatioShown := r.calmar_ratio,
    sortinoRatioShown := r.sortino_ratio,
    totalTradesShown := r.total_trades,
    winRateShown := r.win_rate }

/-- The `runBacktest` click handler outcome: what was written to the results
panel and the final status.  `wasm = none` models a run that threw or returned
a non-object. -/
def handleRunBacktest (wasm : Option BacktestResult) (d : SimDraws) :
    Option DisplayedResults × BacktestStatus :=
  match wasm with
  | some r => (some (displayOfResult r), BacktestStatus.complete)
  | none => (some (showSimulatedBacktestResults d), BacktestStatus.completeSimulated)

/-! ## Market-tick validation at the engine boundary (C8)

`startDataGeneration` (lines 321-344) feeds each generated tick to
`engine.process_market_data(marketData)`. -/

/-- A market data tick as built by `generateSampleMarketData` (lines 152-166). -/
structure MarketTick where
  timestamp : ℕ
  last_price : ℚ
  bid_price : ℚ
  ask_price : ℚ
  bid_size : ℚ
  ask_size : ℚ
  volume : ℚ
  deriving DecidableEq

/-- Engine error taxonomy entry for a malformed tick. -/
inductive EngineError where
  | validationError
  deriving DecidableEq

/-- Top-of-book engine state published by the engine. -/
structure EngineBook where
  bestBid : Option ℚ
  bestAsk : Option ℚ
  deriving DecidableEq

/-- Modelled from the spec: `engine.process_market_data` is implemented by the
WASM module `pkg/hft_market_maker.js`, which is not under `src/`; its input
validation is modelled from the spec's input-boundary rule that malformed
ticks (crossed prices, non-positive sizes) are rejected with a validation
error, not silently coerced, leaving the engine state unchanged. -/
def process_market_data (st : EngineBook) (t : MarketTick) :
    EngineBook × Option EngineError :=
  if t.bid_price < t.ask_price ∧ 0 < t.bid_size ∧ 0 < t.ask_size then
    ({ bestBid := some t.bid_price, bestAsk := some t.ask_price }, none)
  else
    (st, some EngineError.validationError)

/-! ## updateCharts (src/script.js lines 168-207)

Each call pushes the tick's last price; pushes the result's net exposure when
a result with risk metrics is present; shifts both price and P&L arrays when
the price array exceeds 50; and independently pushes-and-trims the volatility
and latency arrays when a result (resp. latency stats) is present. -/

/-- Latency stats of an engine result. -/
structure LatencyStats where
  avgProcessing : ℚ
  avgNetwork : ℚ
  deriving DecidableEq

/-- The fields of `engine.process_market_data`'s result that `updateCharts`
reads.  `riskMetrics` holds `net_exposure` when `result.risk_metrics` exists. -/
structure EngineResult where
  riskMetrics : Option ℚ
  volatility : ℚ
  latencyStats : Option LatencyStats
  deriving DecidableEq

/-- One call's inputs to `updateCharts`. -/
structure ChartInput where
  lastPrice : ℚ
  result : Option EngineResult
  deriving DecidableEq

/-- The four module-level chart data arrays. -/
structure ChartState where
  priceData : List ℚ
  pnlData : List ℚ
  volatilityData : List ℚ
  latencyData : List ℚ
  deriving DecidableEq

/-- The initial empty chart arrays (lines 15-18). -/
def initChartState : ChartState :=
  { priceData := [], pnlData := [], volatilityData := [], latencyData := [] }

/-- `push` then `shift`-if-over-50, as done to the volatility and latency
arrays. -/
def pushTrim (l : List ℚ) (x : ℚ) : List ℚ :=
  if (l ++ [x]).length > 50 then (l ++ [x]).tail else l ++ [x]

/-- The value a call pushes to `pnlData`, when any: the result's
`risk_metrics.net_exposure`. -/
def pnlEntryOf (inp : ChartInput) : Option ℚ :=
  inp.result.bind (fun r => r.riskMetrics)

/-- The value a call pushes to `volatilityData`, when any. -/
def volEntryOf (inp : ChartInput) : Option ℚ :=
  inp.result.map (fun r => r.volatility)

/-- The value a call pushes to `latencyData`, when any: the average of the
processing and network latencies. -/
def latEntryOf (inp : ChartInput) : Option ℚ :=
  (inp.result.bind (fun r => r.latencyStats)).map
    (fun ls => (ls.avgProcessing + ls.avgNetwork) / 2)

/-- One `updateCharts(marketData, result)` call. -/
def updateCharts (st : ChartState) (inp : ChartInput) : ChartState :=
  let priceData := st.priceData ++ [inp.lastPrice]
  let pnlData :=
    match inp.result with
    | some r =>
      match r.riskMetrics with
      | some ne => st.pnlData ++ [ne]
      | none => st.pnlData
    | none => st.pnlData
  let priceData2 := if priceData.length > 50 then priceData.tail else priceData
  let pnlData2 := if priceData.length > 50 then pnlData.tail else pnlData
  let volatilityData :=
    match inp.result with
    | some r => pushTrim st.volatilityData r.volatility
    | none => st.volatilityData
  let latencyData :=
    match inp.result with
    | some r =>
      match r.latencyStats with
      | some ls => pushTrim st.latencyData ((ls.avgProcessing + ls.avgNetwork) / 2)
      | none => st.latencyData
    | none => st.latencyData
  { priceData := priceData2, pnlData := pnlData2,
    volatilityData := volatilityData, latencyData := latencyData }

/-- A whole sequence of `updateCharts` calls from the initial empty state. -/
def runCharts (inputs : List ChartInput) : ChartState :=
  inputs.foldl updateCharts initChartState

/-- The full arrival-ordered history of prices pushed to `priceData`. -/
def pushedPrices (inputs : List ChartInput) : List ℚ :=
  inputs.map (fun i => i.lastPrice)

/-- The full arrival-ordered history of net exposures pushed to `pnlData`. -/
def pushedPnl (inputs : List ChartInput) : List ℚ :=
  inputs.filterMap pnlEntryOf

/-- The full arrival-ordered history of volatilities pushed to
`volatilityData`. -/
def pushedVol (inputs : List ChartInput) : List ℚ :=
  inputs.filterMap volEntryOf

/-- The full arrival-ordered history of averaged latencies pushed to
`latencyData`. -/
def pushedLat (inputs : List ChartInput) : List ℚ :=
  inputs.filterMap latEntryOf

/-! ## The /chat endpoint (src/unnamed/part_001 lines 18-52) -/

/-- Bool test that `sub` occurs as a prefix of `s` (character lists). -/
def charsPre : List Char → List Char → Bool
  | [], _ => true
  | _ :: _, [] => false
  | a :: as, b :: bs => a == b && charsPre as bs

/-- Bool test that `sub` occurs contiguously inside `s` (character lists). -/
def charsIncl (sub : List Char) : List Char → Bool
  | [] => charsPre sub []
  | c :: cs => charsPre sub (c :: cs) || charsIncl sub cs

/-- JavaScript `s.includes(sub)` on strings. -/
def jsIncludes (s sub : String) : Bool := charsIncl sub.data s.data

/-- JavaScript `s.toLowerCase()`, character by character. -/
def jsToLower (s : String) : String := String.mk (s.data.map Char.toLower)

/-- The reply text chosen by the `/chat` handler's if-else chain for a
non-empty message. -/
def chatReply (message : String) : String :=
  let lm := jsToLower message
  if jsIncludes lm "hello" || jsIncludes lm "hi" then
    "Hello! I\x27m your HFT trading assistant. How can I help you today?"
  else if jsIncludes lm "start" || jsIncludes lm "run" then
    "I can help you start the engine. Click the \"Start Engine\" button to begin trading operations."
  else if jsIncludes lm "backtest" || jsIncludes lm "test" then
    "To run a backtest, click the \"Run Backtest\" button. You can adjust the number of data points in the parameters section."
  else if jsIncludes lm "metrics" || jsIncludes lm "performance" then
    "The performance metrics are displayed in the dashboard. You can see portfolio value, PnL, risk scores, and more."
  else if jsIncludes lm "latency" || jsIncludes lm "speed" then
    "Latency optimization tools are available in the \"Latency Optimization\" section. You can benchmark performance and simulate FPGA/GPU acceleration."
  else if jsIncludes lm "risk" || jsIncludes lm "var" then
    "Risk metrics including VaR, Expected Shortfall, and leverage are shown in the \"Risk Metrics\" section."
  else if jsIncludes lm "order book" || jsIncludes lm "l2" then
    "The order book shows live L2 market data. It\x27s displayed in the \"Order Book\" section with bid/ask levels."
  else if jsIncludes lm "volatility" || jsIncludes lm "vol" then
    "Volatility is tracked in real-time and displayed in the \"Volatility & Risk\" chart. The system uses EWMA and GARCH models."
  else if jsIncludes lm "help" || jsIncludes lm "what can you do" then
    "I can help you navigate the interface, explain features, and guide you through using the HFT trading system. Try asking about metrics, backtesting, latency, or risk management."
  else
    "I understand you\x27re asking about: \"" ++ message ++ "\". Could you please be more specific about what you\x27d like to know about the HFT trading system?"

/-- The HTTP response of the `/chat` handler. -/
structure ChatResponse where
  status : ℕ
  errorBody : Option String
  replyBody : Option String
  deriving DecidableEq

/-- The `/chat` handler: `message` is the request body's `message` field
(`none` when absent).  `if (!message)` is truthiness: absent or empty both
take the 400 branch. -/
def chatHandler (message : Option String) : ChatResponse :=
  match message with
  | none => { status := 400, errorBody := some "Message is required", replyBody := none }
  | some m =>
    if m = "" then { status := 400, errorBody := some "Message is required", replyBody := none }
    else { status := 200, errorBody := none, replyBody := some (chatReply m) }

/-! ## Helper lemmas -/

theorem foldl_tradeStep_all_none (events : List (Option (ℚ × ℚ))) (acc : BtAccum)
    (h : ∀ e ∈ events, e = none) : events.foldl tradeStep acc = acc := by
  induction events generalizing acc with
  | nil => rfl
  | cons e rest ih =>
    have he : e = none := h e (List.mem_cons_self e rest)
    rw [List.foldl_cons, he]
    exact ih acc (fun x hx => h x (List.mem_cons_of_mem e hx))

theorem runSimpleBacktest_all_none (events : List (Option (ℚ × ℚ)))
    (h : ∀ e ∈ events, e = none) : runSimpleBacktest events = initAccum :=
  foldl_tradeStep_all_none events initAccum h

theorem tradeStep_wins_le (acc : BtAccum) (e : Option (ℚ × ℚ))
    (h : acc.winningTrades ≤ acc.totalTrades) :
    (tradeStep acc e).winningTrades ≤ (tradeStep acc e).totalTrades := by
  cases e with
  | none => exact h
  | some p =>
    simp only [tradeStep]
    split <;> omega

theorem foldl_tradeStep_wins_le (events : List (Option (ℚ × ℚ))) (acc : BtAccum)
    (h : acc.winningTrades ≤ acc.totalTrades) :
    (events.foldl tradeStep acc).winningTrades ≤ (events.foldl tradeStep acc).totalTrades := by
  induction events generalizing acc with
  | nil => exact h
  | cons e rest ih => exact ih (tradeStep acc e) (tradeStep_wins_le acc e h)

theorem runSimpleBacktest_wins_le (events : List (Option (ℚ × ℚ))) :
    (runSimpleBacktest events).winningTrades ≤ (runSimpleBacktest events).totalTrades :=
  foldl_tradeStep_wins_le events initAccum (by simp [initAccum])

theorem btVariance_nonneg (a : BtAccum) : 0 ≤ btVariance a := by
  rw [btVariance]
  split
  · apply div_nonneg
    · apply List.sum_nonneg
      intro x hx
      obtain ⟨b, _, hb⟩ := List.mem_map.mp hx
      rw [← hb]
      positivity
    · positivity
  · exact le_refl 0

theorem sharpe_eq_spec (a : BtAccum) : sharpeRatio a = spec_sharpeRatio 1 0 a := by
  rw [sharpeRatio, spec_sharpeRatio, spec_annualizedReturn, spec_annualizedVol]
  by_cases hv : 0 < btVariance a
  · rw [if_pos hv]
    push_cast
    norm_num
  · rw [if_neg hv]
    have h0 : btVariance a = 0 := le_antisymm (not_lt.mp hv) (btVariance_nonneg a)
    rw [h0]
    push_cast
    simp

theorem updateCharts_priceData (st : ChartState) (inp : ChartInput) :
    (updateCharts st inp).priceData =
      if (st.priceData ++ [inp.lastPrice]).length > 50 then
        (st.priceData ++ [inp.lastPrice]).tail
      else st.priceData ++ [inp.lastPrice] := by
  simp [updateCharts]

theorem updateCharts_pnlData (st : ChartState) (inp : ChartInput) :
    (updateCharts st inp).pnlData =
      if (st.priceData ++ [inp.lastPrice]).length > 50 then
        (st.pnlData ++ (pnlEntryOf inp).toList).tail
      else st.pnlData ++ (pnlEntryOf inp).toList := by
  cases hr : inp.result with
  | none => simp [updateCharts, pnlEntryOf, hr]
  | some r => cases hrm : r.riskMetrics <;> simp [updateCharts, pnlEntryOf, hr, hrm]

theorem updateCharts_volatilityData (st : ChartState) (inp : ChartInput) :
    (updateCharts st inp).volatilityData =
      (volEntryOf inp).elim st.volatilityData (fun v => pushTrim st.volatilityData v) := by
  cases hr : inp.result <;> simp [updateCharts, volEntryOf, hr]

theorem updateCharts_latencyData (st : ChartState) (inp : ChartInput) :
    (updateCharts st inp).latencyData =
      (latEntryOf inp).elim st.latencyData (fun v => pushTrim st.latencyData v) := by
  cases hr : inp.result with
  | none => simp [updateCharts, latEntryOf, hr]
  | some r => cases hls : r.latencyStats <;> simp [updateCharts, latEntryOf, hr, hls]

theorem isSuffix_append_append {α : Type} {l h : List α} (t : List α) (hs : l.IsSuffix h) :
    (l ++ t).IsSuffix (h ++ t) := by
  obtain ⟨w, hw⟩ := hs
  exact ⟨w, by rw [← List.append_assoc, hw]⟩

theorem isSuffix_tail_left {α : Type} {l h : List α} (hs : l.IsSuffix h) :
    l.tail.IsSuffix h :=
  (List.tail_suffix l).trans hs

theorem pushTrim_length_le {l : List ℚ} (x : ℚ) (h : l.length ≤ 50) :
    (pushTrim l x).length ≤ 50 := by
  rw [pushTrim]
  split_ifs with h2 <;>
    simp only [List.length_tail, List.length_append, List.length_singleton] at h2 ⊢ <;> omega

theorem pushTrim_isSuffix {l H : List ℚ} (x : ℚ) (hs : l.IsSuffix H) :
    (pushTrim l x).IsSuffix (H ++ [x]) := by
  rw [pushTrim]
  split_ifs with h2
  · exact isSuffix_tail_left (isSuffix_append_append [x] hs)
  · exact isSuffix_append_append [x] hs

theorem filterMap_cons_eq_toList_append {α β : Type} (f : α → Option β) (a : α)
    (l : List α) : List.filterMap f (a :: l) = (f a).toList ++ List.filterMap f l := by
  cases h : f a <;> simp [List.filterMap_cons, h]

theorem updateCharts_inv (st : ChartState) (i : ChartInput) (Hp Hn Hv Hl : List ℚ)
    (h1 : st.pnlData.length ≤ st.priceData.length) (h2 : st.priceData.length ≤ 50)
    (h3 : st.volatilityData.length ≤ 50) (h4 : st.latencyData.length ≤ 50)
    (s1 : st.priceData.IsSuffix Hp) (s2 : st.pnlData.IsSuffix Hn)
    (s3 : st.volatilityData.IsSuffix Hv) (s4 : st.latencyData.IsSuffix Hl) :
    (updateCharts st i).pnlData.length ≤ (updateCharts st i).priceData.length ∧
    (updateCharts st i).priceData.length ≤ 50 ∧
    (updateCharts st i).volatilityData.length ≤ 50 ∧
    (updateCharts st i).latencyData.length ≤ 50 ∧
    (updateCharts st i).priceData.IsSuffix (Hp ++ [i.lastPrice]) ∧
    (updateCharts st i).pnlData.IsSuffix (Hn ++ (pnlEntryOf i).toList) ∧
    (updateCharts st i).volatilityData.IsSuffix (Hv ++ (volEntryOf i).toList) ∧
    (updateCharts st i).latencyData.IsSuffix (Hl ++ (latEntryOf i).toList) := by
  have hplen : (pnlEntryOf i).toList.length ≤ 1 := by cases pnlEntryOf i <;> simp
  refine ⟨?_, ?_, ?_, ?_, ?_, ?_, ?_, ?_⟩
  · rw [updateCharts_pnlData, updateCharts_priceData]
    split_ifs with hc <;>
      simp only [List.length_tail, List.length_append, List.length_singleton] <;> omega
  · rw [updateCharts_priceData]
    split_ifs with hc <;>
      simp only [List.length_tail, List.length_append, List.length_singleton] at hc ⊢ <;> omega
  · rw [updateCharts_volatilityData]
    cases hv : volEntryOf i
    · simpa using h3
    · simpa using pushTrim_length_le _ h3
  · rw [updateCharts_latencyData]
    cases hl : latEntryOf i
    · simpa using h4
    · simpa using pushTrim_length_le _ h4
  · rw [updateCharts_priceData]
    split_ifs with hc
    · exact isSuffix_tail_left (isSuffix_append_append [i.lastPrice] s1)
    · exact isSuffix_append_append [i.lastPrice] s1
  · rw [updateCharts_pnlData]
    split_ifs with hc
    · exact isSuffix_tail_left (isSuffix_append_append _ s2)
    · exact isSuffix_append_append _ s2
  · rw [updateCharts_volatilityData]
    cases hv : volEntryOf i
    · simpa using s3
    · simpa using pushTrim_isSuffix _ s3
  · rw [updateCharts_latencyData]
    cases hl : latEntryOf i
    · simpa using s4
    · simpa using pushTrim_isSuffix _ s4

theorem runCharts_aux (inputs : List ChartInput) (st : ChartState) (Hp Hn Hv Hl : List ℚ)
    (h1 : st.pnlData.length ≤ st.priceData.length) (h2 : st.priceData.length ≤ 50)
    (h3 : st.volatilityData.length ≤ 50) (h4 : st.latencyData.length ≤ 50)
    (s1 : st.priceData.IsSuffix Hp) (s2 : st.pnlData.IsSuffix Hn)
    (s3 : st.volatilityData.IsSuffix Hv) (s4 : st.latencyData.IsSuffix Hl) :
    (inputs.foldl updateCharts st).pnlData.length ≤
      (inputs.foldl updateCharts st).priceData.length ∧
    (inputs.foldl updateCharts st).priceData.length ≤ 50 ∧
    (inputs.foldl updateCharts st).volatilityData.length ≤ 50 ∧
    (inputs.foldl updateCharts st).latencyData.length ≤ 50 ∧
    (inputs.foldl updateCharts st).priceData.IsSuffix (Hp ++ pushedPrices inputs) ∧
    (inputs.foldl updateCharts st).pnlData.IsSuffix (Hn ++ pushedPnl inputs) ∧
    (inputs.foldl updateCharts st).volatilityData.IsSuffix (Hv ++ pushedVol inputs) ∧
    (inputs.foldl updateCharts st).latencyData.IsSuffix (Hl ++ pushedLat inputs) := by
  induction inputs generalizing st Hp Hn Hv Hl with
  | nil =>
    simp only [List.foldl_nil, pushedPrices, pushedPnl, pushedVol, pushedLat,
      List.map_nil, List.filterMap_nil, List.append_nil]
    exact ⟨h1, h2, h3, h4, s1, s2, s3, s4⟩
  | cons i rest ih =>
    have hp : Hp ++ pushedPrices (i :: rest) = (Hp ++ [i.lastPrice]) ++ pushedPrices rest := by
      simp [pushedPrices, List.append_assoc]
    have hn : Hn ++ pushedPnl (i :: rest) =
        (Hn ++ (pnlEntryOf i).toList) ++ pushedPnl rest := by
      simp [pushedPnl, filterMap_cons_eq_toList_append, List.append_assoc]
    have hv : Hv ++ pushedVol (i :: rest) =
        (Hv ++ (volEntryOf i).toList) ++ pushedVol rest := by
      simp [pushedVol, filterMap_cons_eq_toList_append, List.append_assoc]
    have hl : Hl ++ pushedLat (i :: rest) =
        (Hl ++ (latEntryOf i).toList) ++ pushedLat rest := by
      simp [pushedLat, filterMap_cons_eq_toList_append, List.append_assoc]
    obtain ⟨a1, a2, a3, a4, a5, a6, a7, a8⟩ :=
      updateCharts_inv st i Hp Hn Hv Hl h1 h2 h3 h4 s1 s2 s3 s4
    rw [List.foldl_cons, hp, hn, hv, hl]
    exact ih (updateCharts st i) _ _ _ _ a1 a2 a3 a4 a5 a6 a7 a8

theorem chatReply_ne_empty (m : String) : chatReply m ≠ "" := by
  rw [chatReply]
  split_ifs
  · decide
  · decide
  · decide
  · decide
  · decide
  · decide
  · decide
  · decide
  · decide
  · intro h
    have hl := congrArg String.length h
    rw [String.length_append, String.length_append] at hl
    have h1 : 0 < String.length "I understand you\x27re asking about: \"" := by decide
    have h2 : String.length "" = 0 := by decide
    omega

/-! ## Claims -/

/-- Claim C2: a `runSimpleBacktest` run in which the trade branch never fires
(every iteration's event is `none`, so there are zero fills and the capital
never changes) returns `totalReturn = 0`, `maxDrawdown = 0` and
`sharpeRatio = 0` (a genuine zero, not an undefined value). -/
theorem claim_C2 (events : List (Option (ℚ × ℚ))) (h : ∀ e ∈ events, e = none) :
    totalReturn (runSimpleBacktest events) = 0 ∧
    (runSimpleBacktest events).maxDrawdown = 0 ∧
    sharpeRatio (runSimpleBacktest events) = 0 := by
  rw [runSimpleBacktest_all_none events h]
  refine ⟨by norm_num [totalReturn, initAccum], rfl, ?_⟩
  rw [sharpeRatio, if_neg]
  norm_num [btVariance, initAccum]

/-- Witness for C2 at the concrete two-iteration run with no trades. -/
theorem claim_C2_witness :
    totalReturn (runSimpleBacktest [none, none]) = 0 ∧
    (runSimpleBacktest [none, none]).maxDrawdown = 0 ∧
    sharpeRatio (runSimpleBacktest [none, none]) = 0 :=
  claim_C2 [none, none] (by intro e he; simpa using he)

/-- Claim C6 (confirmed): the win rate of a run equals
`winningTrades / totalTrades` whenever at least one trade occurred, it lies in
`[0, 1]`, and it is reported as `0` when no trade occurred. -/
theorem claim_C6 (events : List (Option (ℚ × ℚ))) :
    ((runSimpleBacktest events).totalTrades = 0 → winRate (runSimpleBacktest events) = 0) ∧
    (0 < (runSimpleBacktest events).totalTrades →
      winRate (runSimpleBacktest events) =
        ((runSimpleBacktest events).winningTrades : ℚ) /
          ((runSimpleBacktest events).totalTrades : ℚ) ∧
      0 ≤ winRate (runSimpleBacktest events) ∧ winRate (runSimpleBacktest events) ≤ 1) := by
  constructor
  · intro h0
    rw [winRate, if_neg]
    omega
  · intro hpos
    have heq : winRate (runSimpleBacktest events) =
        ((runSimpleBacktest events).winningTrades : ℚ) /
          ((runSimpleBacktest events).totalTrades : ℚ) := by
      rw [winRate, if_pos hpos]
    refine ⟨heq, ?_, ?_⟩
    · rw [heq]
      positivity
    · rw [heq]
      rw [div_le_one (by exact_mod_cast hpos)]
      exact_mod_cast runSimpleBacktest_wins_le events

/-- Witness for C6 at a concrete run with one winning trade. -/
theorem claim_C6_witness :
    0 < (runSimpleBacktest [some (19/20, 20000)]).totalTrades ∧
    (winRate (runSimpleBacktest [some (19/20, 20000)]) =
      ((runSimpleBacktest [some (19/20, 20000)]).winningTrades : ℚ) /
        ((runSimpleBacktest [some (19/20, 20000)]).totalTrades : ℚ) ∧
     0 ≤ winRate (runSimpleBacktest [some (19/20, 20000)]) ∧
     winRate (runSimpleBacktest [some (19/20, 20000)]) ≤ 1) :=
  ⟨by norm_num [runSimpleBacktest, tradeStep, tradePnLOf, initAccum],
   (claim_C6 [some (19/20, 20000)]).2
     (by norm_num [runSimpleBacktest, tradeStep, tradePnLOf, initAccum])⟩

/-- Counterexample to claim C5 as stated: in the run with trade P&Ls
`+100, +100, -50` the code's profit factor is
`totalPnL / |totalPnL - totalPnL * winRate| = 150 / 50 = 3`, while
`gross_profit / gross_loss = 200 / 50 = 4`. -/
theorem claim_C5_counterexample :
    profitFactor (runSimpleBacktest
        [some (19/20, 20000), some (19/20, 20000), some (1/5, 20000)]) ≠
      spec_profitFactor [some (19/20, 20000), some (19/20, 20000), some (1/5, 20000)] := by
  norm_num [profitFactor, spec_profitFactor, spec_grossProfit, spec_grossLoss, pnlList,
    winRate, runSimpleBacktest, tradeStep, tradePnLOf, initAccum,
    List.filterMap_cons, List.filter_cons, decide_eq_true_eq]

/-- Claim C5 as amended: the profit factor the code returns is
`totalPnL / |totalPnL - totalPnL * winRate|`, which for any run with positive
total P&L and at least one non-winning trade equals `1 / (1 - winRate)` --
independent of the trades' magnitudes, hence not `gross_profit / gross_loss`
in general. -/
theorem claim_C5 (events : List (Option (ℚ × ℚ)))
    (h1 : 0 < (runSimpleBacktest events).totalPnL)
    (h2 : (runSimpleBacktest events).winningTrades < (runSimpleBacktest events).totalTrades) :
    profitFactor (runSimpleBacktest events) =
      1 / (1 - winRate (runSimpleBacktest events)) := by
  have htr : 0 < (runSimpleBacktest events).totalTrades := lt_of_le_of_lt (Nat.zero_le _) h2
  have hw : winRate (runSimpleBacktest events) =
      ((runSimpleBacktest events).winningTrades : ℚ) /
        ((runSimpleBacktest events).totalTrades : ℚ) := by
    rw [winRate, if_pos htr]
  have htrq : (0 : ℚ) < ((runSimpleBacktest events).totalTrades : ℚ) := by exact_mod_cast htr
  have hlt1 : winRate (runSimpleBacktest events) < 1 := by
    rw [hw, div_lt_one htrq]
    exact_mod_cast h2
  have hpos : 0 < 1 - winRate (runSimpleBacktest events) := by linarith
  rw [profitFactor, if_pos h1]
  have hden : (runSimpleBacktest events).totalPnL -
      (runSimpleBacktest events).totalPnL * winRate (runSimpleBacktest events) =
      (runSimpleBacktest events).totalPnL * (1 - winRate (runSimpleBacktest events)) := by
    ring
  rw [hden, abs_of_pos (mul_pos h1 hpos)]
  rw [eq_div_iff (ne_of_gt hpos)]
  field_simp

/-- Witness for C5 at the run with trade P&Ls `+100, -50`. -/
theorem claim_C5_witness :
    0 < (runSimpleBacktest [some (19/20, 20000), some (1/5, 20000)]).totalPnL ∧
    (runSimpleBacktest [some (19/20, 20000), some (1/5, 20000)]).winningTrades <
      (runSimpleBacktest [some (19/20, 20000), some (1/5, 20000)]).totalTrades ∧
    profitFactor (runSimpleBacktest [some (19/20, 20000), some (1/5, 20000)]) =
      1 / (1 - winRate (runSimpleBacktest [some (19/20, 20000), some (1/5, 20000)])) :=
  ⟨by norm_num [runSimpleBacktest, tradeStep, tradePnLOf, initAccum],
   by norm_num [runSimpleBacktest, tradeStep, tradePnLOf, initAccum],
   claim_C5 [some (19/20, 20000), some (1/5, 20000)]
     (by norm_num [runSimpleBacktest, tradeStep, tradePnLOf, initAccum])
     (by norm_num [runSimpleBacktest, tradeStep, tradePnLOf, initAccum])⟩

/-- Claim C7, the code evaluated at the failing input: a run whose single
trade wins (`tradePnL = +100`).  The guard `totalPnL > 0` holds, yet the
actual denominator `|totalPnL - totalPnL * winRate|` is `0` because
`winRate = 1`, so the profit-factor computation divides by zero (JavaScript
produces `Infinity`) instead of failing over to a valid fallback value. -/
theorem claim_C7 :
    0 < (runSimpleBacktest [some (19/20, 20000)]).totalPnL ∧
    winRate (runSimpleBacktest [some (19/20, 20000)]) = 1 ∧
    |(runSimpleBacktest [some (19/20, 20000)]).totalPnL -
      (runSimpleBacktest [some (19/20, 20000)]).totalPnL *
        winRate (runSimpleBacktest [some (19/20, 20000)])| = 0 := by
  norm_num [runSimpleBacktest, tradeStep, tradePnLOf, initAccum, winRate]

/-- Counterexample to claim C3 as stated: in the run with trade P&Ls `0, +100`
the code's Sortino ratio is `0.8 * sharpeRatio = 4/5`, while the Sharpe
numerator divided by the downside deviation of the returns is
`(1/20000) / sqrt(1/800000000) = sqrt 2`, a different value. -/
theorem claim_C3_counterexample :
    sortinoRatio (runSimpleBacktest [some (9/20, 100), some (19/20, 20000)]) ≠
      spec_sortinoRatio (runSimpleBacktest [some (9/20, 100), some (19/20, 20000)]) := by
  have hvar : btVariance (runSimpleBacktest [some (9/20, 100), some (19/20, 20000)]) =
      1/400000000 := by
    norm_num [btVariance, avgReturn, runSimpleBacktest, tradeStep, tradePnLOf, initAccum]
  have havg : avgReturn (runSimpleBacktest [some (9/20, 100), some (19/20, 20000)]) =
      1/20000 := by
    norm_num [avgReturn, runSimpleBacktest, tradeStep, tradePnLOf, initAccum]
  have hdv : spec_downsideVariance (runSimpleBacktest [some (9/20, 100), some (19/20, 20000)]) =
      1/800000000 := by
    norm_num [spec_downsideVariance, avgReturn, runSimpleBacktest, tradeStep, tradePnLOf,
      initAccum]
  have hsqrt : Real.sqrt (((1:ℚ)/400000000 : ℚ) : ℝ) = 1/20000 := by
    rw [show (((1:ℚ)/400000000 : ℚ) : ℝ) = (1/20000 : ℝ)^2 by push_cast; norm_num]
    exact Real.sqrt_sq (by norm_num)
  have hlhs : sortinoRatio (runSimpleBacktest [some (9/20, 100), some (19/20, 20000)]) =
      4/5 := by
    rw [sortinoRatio, sharpeRatio, hvar, havg, if_pos (by norm_num), hsqrt]
    push_cast
    norm_num
  rw [hlhs, spec_sortinoRatio, spec_downsideDeviation, hdv, havg]
  intro heq
  have hargpos : (0:ℝ) < (((1:ℚ)/800000000 : ℚ) : ℝ) := by push_cast; norm_num
  have hspos : (0:ℝ) < Real.sqrt (((1:ℚ)/800000000 : ℚ) : ℝ) := Real.sqrt_pos.mpr hargpos
  rw [eq_comm, div_eq_iff (ne_of_gt hspos)] at heq
  have hs : Real.sqrt (((1:ℚ)/800000000 : ℚ) : ℝ) = 1/16000 := by
    push_cast at heq
    linarith
  have hsq := Real.sq_sqrt (le_of_lt hargpos)
  rw [hs] at hsq
  push_cast at hsq
  norm_num at hsq

/-- Claim C3 as amended: the Sortino ratio the code returns is a fixed scaling
of the Sharpe ratio, `sortinoRatio = 0.8 * sharpeRatio`; for a run with
positive return variance this is `0.8 * avgReturn / sqrt(variance)`, with the
full (not downside-only) deviation in the denominator. -/
theorem claim_C3 (events : List (Option (ℚ × ℚ)))
    (h : 0 < btVariance (runSimpleBacktest events)) :
    sortinoRatio (runSimpleBacktest events) =
      (4/5) * ((avgReturn (runSimpleBacktest events) : ℝ) /
        Real.sqrt (btVariance (runSimpleBacktest events))) := by
  rw [sortinoRatio, sharpeRatio, if_pos h]
  ring

/-- Witness for C3 at the run with trade P&Ls `0, +100`. -/
theorem claim_C3_witness :
    0 < btVariance (runSimpleBacktest [some (9/20, 100), some (19/20, 20000)]) ∧
    sortinoRatio (runSimpleBacktest [some (9/20, 100), some (19/20, 20000)]) =
      (4/5) * ((avgReturn (runSimpleBacktest [some (9/20, 100), some (19/20, 20000)]) : ℝ) /
        Real.sqrt (btVariance (runSimpleBacktest [some (9/20, 100), some (19/20, 20000)]))) :=
  ⟨by norm_num [btVariance, avgReturn, runSimpleBacktest, tradeStep, tradePnLOf, initAccum],
   claim_C3 [some (9/20, 100), some (19/20, 20000)]
     (by norm_num [btVariance, avgReturn, runSimpleBacktest, tradeStep, tradePnLOf, initAccum])⟩

/-- Counterexample to claim C4 as stated: in the run with trade P&Ls `0, +200`
the code's Sharpe ratio is `avgReturn / sqrt(variance) = 1`, while the spec's
`(annualized_return - risk_free) / annualized_vol` with a risk-free rate of 2%
(and annualization factor 1) is `-199`: the code subtracts no risk-free rate
and applies no annualization. -/
theorem claim_C4_counterexample :
    sharpeRatio (runSimpleBacktest [some (9/20, 100), some (19/20, 40000)]) ≠
      spec_sharpeRatio 1 (1/50) (runSimpleBacktest [some (9/20, 100), some (19/20, 40000)]) := by
  have hvar : btVariance (runSimpleBacktest [some (9/20, 100), some (19/20, 40000)]) =
      1/100000000 := by
    norm_num [btVariance, avgReturn, runSimpleBacktest, tradeStep, tradePnLOf, initAccum]
  have havg : avgReturn (runSimpleBacktest [some (9/20, 100), some (19/20, 40000)]) =
      1/10000 := by
    norm_num [avgReturn, runSimpleBacktest, tradeStep, tradePnLOf, initAccum]
  have hsqrt : Real.sqrt (((1:ℚ)/100000000 : ℚ) : ℝ) = 1/10000 := by
    rw [show (((1:ℚ)/100000000 : ℚ) : ℝ) = (1/10000 : ℝ)^2 by push_cast; norm_num]
    exact Real.sqrt_sq (by norm_num)
  rw [sharpeRatio, spec_sharpeRatio, spec_annualizedReturn, spec_annualizedVol, hvar, havg,
    if_pos (by norm_num)]
  rw [show ((1:ℚ) * (1/10000 : ℚ)) = (1/10000 : ℚ) by norm_num]
  rw [show (((1:ℚ):ℝ) * (((1:ℚ)/100000000 : ℚ) : ℝ)) = (((1:ℚ)/100000000 : ℚ) : ℝ) by norm_num]
  rw [hsqrt]
  push_cast
  norm_num

/-- Claim C4 as amended: the code's Sharpe ratio is exactly the spec formula
`(annualized_return - risk_free) / annualized_vol` specialised to an
annualization factor of 1 and a risk-free rate of 0, i.e.
`avgReturn / sqrt(variance)` (and 0 when the variance is 0). -/
theorem claim_C4 (events : List (Option (ℚ × ℚ))) :
    sharpeRatio (runSimpleBacktest events) = spec_sharpeRatio 1 0 (runSimpleBacktest events) :=
  sharpe_eq_spec (runSimpleBacktest events)

/-- Counterexample to claim C1 as stated: when the WASM backtest fails
(`wasm = none`), the handler does not leave the results panel empty -- it
displays the substitute values produced by `showSimulatedBacktestResults`. -/
theorem claim_C1_counterexample :
    (handleRunBacktest none (⟨0, 0, 0, 0, 0, 0, 0, 0⟩ : SimDraws)).1 ≠ none := by
  simp [handleRunBacktest]

/-- Claim C1 as amended: the handler always publishes exactly one set of
result values -- those of the returned `BacktestResult` on a successful run,
and the simulated substitute values of `showSimulatedBacktestResults` on a
failed or invalid run; the status reads `Backtest Complete` exactly on
success. -/
theorem claim_C1 (wasm : Option BacktestResult) (d : SimDraws) :
    (handleRunBacktest wasm d).1 =
      some (wasm.elim (showSimulatedBacktestResults d) displayOfResult) ∧
    ((handleRunBacktest wasm d).2 = BacktestStatus.complete ↔ wasm.isSome = true) := by
  cases wasm <;> simp [handleRunBacktest]

/-- Claim C8 (spec-modelled): a malformed tick -- crossed prices
(`bid_price >= ask_price`) or a non-positive size -- presented to
`process_market_data` is rejected with a validation error and the engine
state is returned unchanged. -/
theorem claim_C8 (st : EngineBook) (t : MarketTick)
    (h : t.ask_price ≤ t.bid_price ∨ t.bid_size ≤ 0 ∨ t.ask_size ≤ 0) :
    process_market_data st t = (st, some EngineError.validationError) := by
  rw [process_market_data, if_neg]
  intro hc
  obtain ⟨h1, h2, h3⟩ := hc
  rcases h with h | h | h
  · exact absurd h1 (not_lt.mpr h)
  · exact absurd h2 (not_lt.mpr h)
  · exact absurd h3 (not_lt.mpr h)

/-- Witness for C8 at a concrete crossed tick (bid 100 above ask 99). -/
theorem claim_C8_witness :
    process_market_data { bestBid := none, bestAsk := none }
        { timestamp := 0, last_price := 100, bid_price := 100, ask_price := 99,
          bid_size := 10, ask_size := 10, volume := 0 } =
      ({ bestBid := none, bestAsk := none }, some EngineError.validationError) :=
  claim_C8 { bestBid := none, bestAsk := none }
    { timestamp := 0, last_price := 100, bid_price := 100, ask_price := 99,
      bid_size := 10, ask_size := 10, volume := 0 }
    (Or.inl (by norm_num))

/-- Claim C10 (confirmed): the `/chat` handler answers 400 with body
`{"error": "Message is required"}` exactly when the message is absent or
empty, and answers 200 with a non-empty reply string for every non-empty
message. -/
theorem claim_C10 (msg : Option String) :
    ((chatHandler msg).status = 400 ∧
        (chatHandler msg).errorBody = some "Message is required"
      ↔ msg = none ∨ msg = some "") ∧
    (∀ m : String, msg = some m → m ≠ "" →
      (chatHandler msg).status = 200 ∧ (chatHandler msg).errorBody = none ∧
      (chatHandler msg).replyBody = some (chatReply m) ∧ chatReply m ≠ "") := by
  cases msg with
  | none => simp [chatHandler]
  | some m =>
    by_cases hm : m = ""
    · subst hm
      simp [chatHandler]
    · constructor
      · simp [chatHandler, hm]
      · intro m2 hm2 _
        have hmm : m2 = m := by injection hm2.symm
        subst hmm
        refine ⟨?_, ?_, ?_, chatReply_ne_empty m2⟩ <;> simp [chatHandler, hm]

/-- Witness for C10: the concrete message `hello` gets a 200 with a non-empty
reply, and a missing message gets the 400 error body. -/
theorem claim_C10_witness :
    ((chatHandler (some "hello")).status = 200 ∧
     (chatHandler (some "hello")).errorBody = none ∧
     (chatHandler (some "hello")).replyBody = some (chatReply "hello") ∧
     chatReply "hello" ≠ "") ∧
    ((chatHandler none).status = 400 ∧
     (chatHandler none).errorBody = some "Message is required") :=
  ⟨(claim_C10 (some "hello")).2 "hello" rfl (by decide),
   (claim_C10 none).1.mpr (Or.inl rfl)⟩

/-- Claim C9 (confirmed): after any sequence of `updateCharts` calls starting
from the initial empty state, each of the four chart arrays holds at most 50
entries, and each is a suffix of the full arrival-ordered history of values
pushed to it -- i.e. it holds the most recent entries in arrival order. -/
theorem claim_C9 (inputs : List ChartInput) :
    (runCharts inputs).priceData.length ≤ 50 ∧
    (runCharts inputs).pnlData.length ≤ 50 ∧
    (runCharts inputs).volatilityData.length ≤ 50 ∧
    (runCharts inputs).latencyData.length ≤ 50 ∧
    (runCharts inputs).priceData.IsSuffix (pushedPrices inputs) ∧
    (runCharts inputs).pnlData.IsSuffix (pushedPnl inputs) ∧
    (runCharts inputs).volatilityData.IsSuffix (pushedVol inputs) ∧
    (runCharts inputs).latencyData.IsSuffix (pushedLat inputs) := by
  obtain ⟨a1, a2, a3, a4, a5, a6, a7, a8⟩ :=
    runCharts_aux inputs initChartState [] [] [] []
      (by simp [initChartState]) (by simp [initChartState])
      (by simp [initChartState]) (by simp [initChartState])
      (by simp [initChartState]) (by simp [initChartState])
      (by simp [initChartState]) (by simp [initChartState])
  rw [runCharts]
  exact ⟨a2, le_trans a1 a2, a3, a4, by simpa using a5, by simpa using a6,
    by simpa using a7, by simpa using a8⟩

end HFT
